import Mathlib

/-
  Verification of the online speaker-tracking core of the MeetMate
  repository (src/python/diarization.py).

  The tracker state (`SpeakerTracker`) carries the lazily loaded model
  handle (`model`, an `Option` standing for `self._model`), the sticky
  failure flag (`load_failed` for `self._load_failed`) and the ordered
  speaker registry (`speakers` for `self._speakers`, a list of
  (label, centroid) pairs).  Audio is a list of real-valued PCM samples;
  embeddings are lists of reals.

  Everything external to the tracker — whether the ffmpeg binary is on
  PATH, whether the pyannote model load succeeds (covering the missing
  local path, missing credentials and network failures collapsed by the
  source's `except Exception`), and what the inference call returns for a
  given segment — is collected in a `Backend` environment passed to each
  call.  An inference result of `none` models the inference call raising;
  `Option Unit` for the handle models `self._model` being `None` or a
  loaded object.  Python exceptions inside `_embed` are modelled by
  `Except`: `assign` catches them and falls back, so `assign` itself is a
  total function returning a plain label/state pair, which is the shape of
  the "never fails" contract.
-/

namespace MeetMate

/-- State of `SpeakerTracker` (diarization.py, `__init__`): the cached
model handle, the sticky load-failure flag, and the ordered registry of
(label, centroid) entries.  The constructor arguments `hf_token` and
`model_source` only influence whether the model load succeeds, which the
`Backend` environment records, so they are not part of the state. -/
structure SpeakerTracker where
  model : Option Unit
  load_failed : Bool
  speakers : List (String × List ℝ)

/-- Environment of one call: presence of the ffmpeg binary checked by
`_load_model`, success of the pyannote model load, and the inference
oracle (`none` = the inference call raises). -/
structure Backend where
  ffmpeg_present : Bool
  load_ok : Bool
  embed : List ℝ → Nat → Option (List ℝ)

/-- Constant `MATCH_THRESHOLD = 0.82` from diarization.py. -/
noncomputable def MATCH_THRESHOLD : ℝ := 0.82

/-- Constant `MIN_SAMPLES = 1_600` from diarization.py (the comment there
reads "100 ms at 16 kHz"). -/
def MIN_SAMPLES : Nat := 1600

/-- Dot product of two equal-length vectors, `np.dot(a, b)`. -/
def dot (a b : List ℝ) : ℝ := (List.zipWith (fun x y => x * y) a b).sum

/-- Euclidean norm, `np.linalg.norm(a)`. -/
noncomputable def norm (a : List ℝ) : ℝ := Real.sqrt (dot a a)

/-- Function `_cosine_sim(a, b)`: `0.0` when either norm is zero, else
`np.dot(a, b) / (norm_a * norm_b)`. -/
noncomputable def _cosine_sim (a b : List ℝ) : ℝ :=
  if norm a = 0 ∨ norm b = 0 then 0
  else dot a b / (norm a * norm b)

/-- Weighted moving average `0.9 * old_centroid + 0.1 * embedding`
(elementwise, as numpy broadcasts it). -/
noncomputable def updateCentroid (old_centroid embedding : List ℝ) : List ℝ :=
  List.zipWith (fun c e => 0.9 * c + 0.1 * e) old_centroid embedding

/-- Replacement of the registry entry at the first index whose label is
`best_label` (the source's `idx = next(i for i, (l, _) in
enumerate(self._speakers) if l == best_label)` followed by the in-place
assignment `self._speakers[idx] = (best_label, 0.9 * old + 0.1 * new)`). -/
noncomputable def updateFirst :
    List (String × List ℝ) → String → List ℝ → List (String × List ℝ)
  | [], _, _ => []
  | p :: rest, best_label, embedding =>
    if p.1 = best_label then (p.1, updateCentroid p.2 embedding) :: rest
    else p :: updateFirst rest best_label embedding

/-- Body of the scan loop of `_match_or_create`: keep the running
`(best_sim, best_label)` pair, replacing it only on a strictly greater
similarity (`if sim > best_sim`). -/
noncomputable def scanStep (embedding : List ℝ) (acc : ℝ × Option String)
    (p : String × List ℝ) : ℝ × Option String :=
  if _cosine_sim embedding p.2 > acc.1 then (_cosine_sim embedding p.2, some p.1)
  else acc

/-- Creation arm of `_match_or_create`: label `"Speaker " + (count + 1)`,
centroid an owned copy of the embedding (`embedding.copy()`; copying is
identity on immutable values), appended at the end. -/
noncomputable def newSpeaker (embedding : List ℝ) (s : SpeakerTracker) :
    String × SpeakerTracker :=
  let new_label := "Speaker " ++ toString (s.speakers.length + 1)
  (new_label, { s with speakers := s.speakers ++ [(new_label, embedding)] })

/-- Method `SpeakerTracker._match_or_create`: scan all speakers starting
from `best_sim = -1.0`, `best_label = None`; on `best_label is not None
and best_sim >= MATCH_THRESHOLD` update the matched centroid and return
its label, otherwise append a fresh speaker. -/
noncomputable def _match_or_create (embedding : List ℝ) (s : SpeakerTracker) :
    String × SpeakerTracker :=
  match s.speakers.foldl (scanStep embedding) ((-1 : ℝ), (none : Option String)) with
  | (best_sim, some best_label) =>
    if MATCH_THRESHOLD ≤ best_sim then
      (best_label, { s with speakers := updateFirst s.speakers best_label embedding })
    else newSpeaker embedding s
  | (_, none) => newSpeaker embedding s

/-- Method `SpeakerTracker._load_model`: no-op when a model is cached or a
failure is recorded; a missing ffmpeg binary or a failed pyannote load
sets the sticky flag; a successful load caches the handle. -/
def _load_model (env : Backend) (s : SpeakerTracker) : SpeakerTracker :=
  if s.model.isSome || s.load_failed then s
  else if !env.ffmpeg_present then { s with load_failed := true }
  else if env.load_ok then { s with model := some () }
  else { s with load_failed := true }

/-- Method `SpeakerTracker._embed`: run `_load_model`, raise
(`Except.error`) when no model is available (`RuntimeError("Speaker model
failed to load")`) or when inference raises, else return the flattened
embedding. -/
def _embed (env : Backend) (s : SpeakerTracker) (audio_pcm : List ℝ)
    (sample_rate : Nat) : Except Unit (List ℝ) × SpeakerTracker :=
  let s1 := _load_model env s
  match s1.model with
  | none => (Except.error (), s1)
  | some _ =>
    match env.embed audio_pcm sample_rate with
    | none => (Except.error (), s1)
    | some v => (Except.ok v, s1)

/-- Method `SpeakerTracker.assign`: length gate first (first speaker's
label, else "Speaker 1"), then the sticky-failure early return, then
embedding extraction with a blanket `except` falling back to
"Speaker 1", then `_match_or_create`. -/
noncomputable def assign (env : Backend) (s : SpeakerTracker)
    (audio_pcm : List ℝ) (sample_rate : Nat) : String × SpeakerTracker :=
  if audio_pcm.length < MIN_SAMPLES then
    ((match s.speakers with
      | [] => "Speaker 1"
      | (label, _) :: _ => label), s)
  else if s.load_failed then ("Speaker 1", s)
  else
    match _embed env s audio_pcm sample_rate with
    | (Except.error _, s1) => ("Speaker 1", s1)
    | (Except.ok embedding, s1) => _match_or_create embedding s1

/-- Method `SpeakerTracker.reset`: `self._speakers.clear()` and nothing
else. -/
def reset (s : SpeakerTracker) : SpeakerTracker := { s with speakers := [] }

/-- Iterated `assign` over a list of calls (environment, samples, rate),
threading the tracker state; collects the returned labels. -/
noncomputable def assignAll :
    List (Backend × List ℝ × Nat) → SpeakerTracker → List String × SpeakerTracker
  | [], s => ([], s)
  | c :: rest, s =>
    let r := assign c.1 s c.2.1 c.2.2
    let rs := assignAll rest r.2
    (r.1 :: rs.1, rs.2)

/-- Maximum cosine similarity between an embedding and the stored
centroids, folded from the loop's initial `best_sim = -1.0`. -/
noncomputable def maxSim (embedding : List ℝ)
    (speakers : List (String × List ℝ)) : ℝ :=
  (speakers.map (fun p => _cosine_sim embedding p.2)).foldl max (-1)

/-- States reachable from a freshly constructed tracker (`__init__`:
no model, no failure, empty registry) by any sequence of `assign` and
`reset` calls under arbitrary environments. -/
inductive Reachable : SpeakerTracker → Prop where
  | init : Reachable ⟨none, false, []⟩
  | step (env : Backend) (s : SpeakerTracker) (audio_pcm : List ℝ)
      (sample_rate : Nat) : Reachable s → Reachable (assign env s audio_pcm sample_rate).2
  | reset_step (s : SpeakerTracker) : Reachable s → Reachable (reset s)

/-- Test fixture: an environment with a missing ffmpeg binary. -/
def tEnvNoFfmpeg : Backend := ⟨false, true, fun _ _ => none⟩

/-- Test fixture: an environment whose load succeeds but whose inference
call raises. -/
def tEnvRaise : Backend := ⟨true, true, fun _ _ => none⟩

/-- Test fixture: a fully working environment whose inference always
returns the one-dimensional embedding `[1]`. -/
def tEnvOk : Backend := ⟨true, true, fun _ _ => some [1]⟩

/-- Test fixture: a silent segment of `n` samples. -/
def tAudio (n : Nat) : List ℝ := List.replicate n 0

lemma load_model_speakers (env : Backend) (s : SpeakerTracker) :
    (_load_model env s).speakers = s.speakers := by
  unfold _load_model
  split_ifs <;> rfl

lemma embed_state (env : Backend) (s : SpeakerTracker) (audio_pcm : List ℝ)
    (sample_rate : Nat) :
    (_embed env s audio_pcm sample_rate).2 = _load_model env s := by
  unfold _embed
  dsimp only
  split
  · rfl
  · split <;> rfl

lemma dot_cons (x y : ℝ) (a b : List ℝ) :
    dot (x :: a) (y :: b) = x * y + dot a b := by
  simp [dot]

lemma dot_self_nonneg (a : List ℝ) : 0 ≤ dot a a := by
  induction a with
  | nil => simp [dot]
  | cons x t ih =>
    rw [dot_cons]
    exact add_nonneg (mul_self_nonneg x) ih

lemma match_or_create_flags (embedding : List ℝ) (s : SpeakerTracker) :
    ((_match_or_create embedding s).2).model = s.model ∧
      ((_match_or_create embedding s).2).load_failed = s.load_failed := by
  unfold _match_or_create newSpeaker
  split
  · split_ifs <;> exact ⟨rfl, rfl⟩
  · exact ⟨rfl, rfl⟩

lemma norm_single_one : norm [(1 : ℝ)] = 1 := by
  unfold norm
  rw [show dot [(1 : ℝ)] [(1 : ℝ)] = 1 by simp [dot]]
  exact Real.sqrt_one

lemma norm_single_zero : norm [(0 : ℝ)] = 0 := by
  unfold norm
  rw [show dot [(0 : ℝ)] [(0 : ℝ)] = 0 by simp [dot]]
  exact Real.sqrt_zero

/-- Claim C9: the cosine similarity of any embedding of nonzero norm with
itself is exactly 1, and whenever either argument has zero norm (in
particular the zero vector) the similarity is exactly 0. -/
theorem cosine_sim_edge (a b : List ℝ) :
    (norm a ≠ 0 → _cosine_sim a a = 1) ∧
    (norm a = 0 ∨ norm b = 0 → _cosine_sim a b = 0) := by
  constructor
  · intro h
    have hd : dot a a ≠ 0 := by
      intro h0
      exact h (by rw [norm, h0, Real.sqrt_zero])
    unfold _cosine_sim
    rw [if_neg (by push_neg; exact ⟨h, h⟩)]
    rw [norm, Real.mul_self_sqrt (dot_self_nonneg a)]
    exact div_self hd
  · intro h
    unfold _cosine_sim
    rw [if_pos h]

/-- Witness for C9 at the one-dimensional embeddings `[1]` and `[0]`. -/
theorem cosine_sim_edge_witness :
    _cosine_sim [(1 : ℝ)] [(1 : ℝ)] = 1 ∧ _cosine_sim [(0 : ℝ)] [(1 : ℝ)] = 0 :=
  ⟨(cosine_sim_edge [(1 : ℝ)] [(1 : ℝ)]).1 (by rw [norm_single_one]; norm_num),
   (cosine_sim_edge [(0 : ℝ)] [(1 : ℝ)]).2 (Or.inl norm_single_zero)⟩

/-- Claim C4: a segment with fewer than `MIN_SAMPLES` samples is answered
from the registry alone — the first known speaker's label when the
registry is non-empty, the fallback "Speaker 1" when it is empty — with
the state returned unchanged.  The environment `env` (ffmpeg presence,
model load, inference oracle) is universally quantified and absent from
the conclusion, which is the shallow-embedding statement that neither the
model load nor the embedding backend is consulted. -/
theorem assign_short_gate (env : Backend) (s : SpeakerTracker)
    (audio_pcm : List ℝ) (sample_rate : Nat)
    (h : audio_pcm.length < MIN_SAMPLES) :
    (s.speakers = [] → assign env s audio_pcm sample_rate = ("Speaker 1", s)) ∧
    ∀ p rest, s.speakers = p :: rest →
      assign env s audio_pcm sample_rate = (p.1, s) := by
  constructor
  · intro hs
    unfold assign
    rw [if_pos h, hs]
  · intro p rest hs
    obtain ⟨label, centroid⟩ := p
    unfold assign
    rw [if_pos h, hs]

/-- Witness for C4: a 100-sample segment on an empty registry yields
"Speaker 1", and on a registry holding "Alice" it yields "Alice", both
without state change, under a fully working environment. -/
theorem assign_short_gate_witness :
    assign tEnvOk ⟨none, false, []⟩ (tAudio 100) 16000
      = ("Speaker 1", ⟨none, false, []⟩) ∧
    assign tEnvOk ⟨some (), false, [("Alice", [1])]⟩ (tAudio 100) 16000
      = ("Alice", ⟨some (), false, [("Alice", [1])]⟩) :=
  ⟨(assign_short_gate tEnvOk ⟨none, false, []⟩ (tAudio 100) 16000
      (by norm_num [tAudio, MIN_SAMPLES])).1 rfl,
   (assign_short_gate tEnvOk ⟨some (), false, [("Alice", [1])]⟩ (tAudio 100) 16000
      (by norm_num [tAudio, MIN_SAMPLES])).2 ("Alice", [1]) [] rfl⟩

lemma assign_unavailable (env : Backend) (s : SpeakerTracker)
    (audio_pcm : List ℝ) (sample_rate : Nat) (hlf : s.load_failed = true)
    (hlen : MIN_SAMPLES ≤ audio_pcm.length) :
    assign env s audio_pcm sample_rate = ("Speaker 1", s) := by
  unfold assign
  rw [if_neg (Nat.not_lt.mpr hlen), hlf]
  exact if_pos rfl

/-- Claim C5: once `load_failed` is set, any sequence of `assign` calls on
valid-length segments — under arbitrary and varying environments, which
is the shallow-embedding statement that neither the model load nor the
backend's embed is ever consulted again — returns "Speaker 1" every time
and leaves the tracker state untouched. -/
theorem assign_sticky_unavailable (calls : List (Backend × List ℝ × Nat))
    (s : SpeakerTracker) (hlf : s.load_failed = true)
    (hall : ∀ c ∈ calls, MIN_SAMPLES ≤ c.2.1.length) :
    assignAll calls s = (calls.map (fun _ => "Speaker 1"), s) := by
  induction calls with
  | nil => rfl
  | cons c rest ih =>
    have h1 : assign c.1 s c.2.1 c.2.2 = ("Speaker 1", s) :=
      assign_unavailable c.1 s c.2.1 c.2.2 hlf (hall c (List.mem_cons_self c rest))
    have h2 := ih (fun d hd => hall d (List.mem_cons_of_mem c hd))
    unfold assignAll
    rw [h1]
    dsimp only
    rw [h2]
    simp

/-- Witness for C5: the spec's concrete scenario — three valid-length
calls, each under a different environment (working, raising, missing
ffmpeg), on a tracker marked unavailable — all return "Speaker 1" and the
state is unchanged. -/
theorem assign_sticky_unavailable_witness :
    assignAll
      [(tEnvOk, tAudio 1600, 16000), (tEnvRaise, tAudio 2000, 8000),
        (tEnvNoFfmpeg, tAudio 1700, 44100)] ⟨none, true, []⟩
      = (["Speaker 1", "Speaker 1", "Speaker 1"], ⟨none, true, []⟩) := by
  have h := assign_sticky_unavailable
    [(tEnvOk, tAudio 1600, 16000), (tEnvRaise, tAudio 2000, 8000),
      (tEnvNoFfmpeg, tAudio 1700, 44100)] ⟨none, true, []⟩ rfl
    (by intro c hc; fin_cases hc <;> norm_num [tAudio, MIN_SAMPLES])
  simpa using h

/-- Claim C1: when embedding extraction fails, `assign` returns the
fallback label "Speaker 1" and the speaker registry is exactly as it was
before the call.  Totality ("never propagates an error") is carried by
the embedding itself: exceptions inside `_embed` are an `Except` value
that `assign` consumes, and `assign` is a total function into a plain
label/state pair. -/
theorem assign_extraction_fallback (env : Backend) (s : SpeakerTracker)
    (audio_pcm : List ℝ) (sample_rate : Nat) (e : Unit) (s1 : SpeakerTracker)
    (hlen : MIN_SAMPLES ≤ audio_pcm.length) (hlf : s.load_failed = false)
    (hemb : _embed env s audio_pcm sample_rate = (Except.error e, s1)) :
    assign env s audio_pcm sample_rate = ("Speaker 1", s1) ∧
      s1.speakers = s.speakers := by
  constructor
  · unfold assign
    rw [if_neg (Nat.not_lt.mpr hlen), hlf, if_neg (by simp), hemb]
  · have h3 := embed_state env s audio_pcm sample_rate
    rw [hemb] at h3
    rw [show s1 = _load_model env s from h3, load_model_speakers]

/-- Witness for C1: a fresh tracker under an environment with no ffmpeg
binary — extraction fails (the load fails, so `_embed` raises), the call
returns "Speaker 1", and the registry is empty as before. -/
theorem assign_extraction_fallback_witness :
    assign tEnvNoFfmpeg ⟨none, false, []⟩ (tAudio 1600) 16000
        = ("Speaker 1", ⟨none, true, []⟩) ∧
      (⟨none, true, []⟩ : SpeakerTracker).speakers
        = (⟨none, false, []⟩ : SpeakerTracker).speakers :=
  assign_extraction_fallback tEnvNoFfmpeg ⟨none, false, []⟩ (tAudio 1600) 16000
    () ⟨none, true, []⟩ (by norm_num [tAudio, MIN_SAMPLES]) rfl rfl

/-- Counterexample to C6 as stated: `reset` does not remove the
unavailable marking.  On a tracker with `load_failed` set, after `reset`
the flag is still set, and the next valid-length `assign` under a fully
working environment still returns "Speaker 1" with the state unchanged —
no backend initialization is re-attempted. -/
theorem reset_unavailable_cex :
    (reset ⟨none, true, []⟩).load_failed = true ∧
    assign tEnvOk (reset ⟨none, true, []⟩) (tAudio 1600) 16000
      = ("Speaker 1", reset ⟨none, true, []⟩) :=
  ⟨rfl, assign_unavailable tEnvOk (reset ⟨none, true, []⟩) (tAudio 1600) 16000
    rfl (by norm_num [tAudio, MIN_SAMPLES])⟩

/-- Claim C6 as amended: `reset()` clears only the speaker registry; the
unavailable marking persists, so the next `assign` call with a
valid-length segment still returns "Speaker 1" without re-attempting
backend initialization (the environment is universally quantified and
unused). -/
theorem reset_keeps_unavailable (s : SpeakerTracker) (env : Backend)
    (audio_pcm : List ℝ) (sample_rate : Nat) (hlf : s.load_failed = true)
    (hlen : MIN_SAMPLES ≤ audio_pcm.length) :
    (reset s).speakers = [] ∧ (reset s).load_failed = true ∧
      assign env (reset s) audio_pcm sample_rate = ("Speaker 1", reset s) :=
  ⟨rfl, hlf, assign_unavailable env (reset s) audio_pcm sample_rate hlf hlen⟩

/-- Witness for the amended C6 at a concrete unavailable tracker. -/
theorem reset_keeps_unavailable_witness :
    (reset ⟨none, true, [("Alice", [1])]⟩).speakers = [] ∧
    (reset ⟨none, true, [("Alice", [1])]⟩).load_failed = true ∧
    assign tEnvRaise (reset ⟨none, true, [("Alice", [1])]⟩) (tAudio 2000) 16000
      = ("Speaker 1", reset ⟨none, true, [("Alice", [1])]⟩) :=
  reset_keeps_unavailable ⟨none, true, [("Alice", [1])]⟩ tEnvRaise (tAudio 2000)
    16000 rfl (by norm_num [tAudio, MIN_SAMPLES])

/-- Test fixture for the C7 counterexample: a tracker with a loaded model
and one known speaker. -/
def tC7state : SpeakerTracker := ⟨some (), false, [("Speaker 1", [0, 1])]⟩

/-- Counterexample to C7 as stated: at sample rate 8,000 Hz a segment of
1,000 samples (125 ms, well above the claimed r/10 = 800-sample bound) is
still gated: `assign` answers from the registry with the state unchanged,
identically under a working backend and under one that would raise,
instead of embedding the segment as the claim requires. -/
theorem gate_ignores_rate_cex :
    assign ⟨true, true, fun _ _ => some [1, 0]⟩ tC7state (tAudio 1000) 8000
        = ("Speaker 1", tC7state) ∧
      assign ⟨true, true, fun _ _ => none⟩ tC7state (tAudio 1000) 8000
        = ("Speaker 1", tC7state) := by
  constructor <;>
    · unfold assign
      rw [if_pos (by norm_num [tAudio, MIN_SAMPLES] :
        (tAudio 1000).length < MIN_SAMPLES)]
      rfl

/-- Claim C7 as amended: the length gate compares the sample count against
the fixed constant 1,600 (`MIN_SAMPLES`, 100 ms at 16 kHz only),
independently of the sample rate argument: for every rate, a segment of
fewer than 1,600 samples is answered from the registry with the state
unchanged, and a segment of at least 1,600 samples whose extraction
succeeds proceeds to matching. -/
theorem gate_fixed_min_samples (env : Backend) (s : SpeakerTracker)
    (audio_pcm : List ℝ) (sample_rate : Nat) :
    (audio_pcm.length < 1600 →
      assign env s audio_pcm sample_rate =
        ((match s.speakers with
          | [] => "Speaker 1"
          | (label, _) :: _ => label), s)) ∧
    (1600 ≤ audio_pcm.length → s.load_failed = false →
      ∀ embedding s1,
        _embed env s audio_pcm sample_rate = (Except.ok embedding, s1) →
        assign env s audio_pcm sample_rate = _match_or_create embedding s1) := by
  constructor
  · intro h
    unfold assign
    rw [if_pos (show audio_pcm.length < MIN_SAMPLES from h)]
  · intro hlen hlf embedding s1 hemb
    unfold assign
    rw [if_neg (Nat.not_lt.mpr hlen : ¬audio_pcm.length < MIN_SAMPLES), hlf,
      if_neg (by simp), hemb]

/-- Witness for the amended C7: at rate 8,000 a 1,000-sample segment is
gated, and at rate 44,100 a 1,600-sample segment reaches matching. -/
theorem gate_fixed_min_samples_witness :
    assign tEnvOk tC7state (tAudio 1000) 8000 = ("Speaker 1", tC7state) ∧
    assign tEnvOk ⟨some (), false, []⟩ (tAudio 1600) 44100
      = _match_or_create [1] ⟨some (), false, []⟩ :=
  ⟨(gate_fixed_min_samples tEnvOk tC7state (tAudio 1000) 8000).1
      (by norm_num [tAudio]),
   (gate_fixed_min_samples tEnvOk ⟨some (), false, []⟩ (tAudio 1600) 44100).2
      (by norm_num [tAudio]) rfl [1] ⟨some (), false, []⟩ rfl⟩

lemma le_foldl_max (l : List ℝ) (b : ℝ) : b ≤ l.foldl max b := by
  induction l generalizing b with
  | nil => exact le_refl b
  | cons x t ih =>
    rw [List.foldl_cons]
    exact le_trans (le_max_left b x) (ih (max b x))

lemma mem_le_foldl_max (l : List ℝ) (b x : ℝ) (hx : x ∈ l) :
    x ≤ l.foldl max b := by
  induction l generalizing b with
  | nil => cases hx
  | cons y t ih =>
    rw [List.foldl_cons]
    rcases List.mem_cons.mp hx with h | h
    · exact le_trans (h ▸ le_max_right b y) (le_foldl_max t (max b y))
    · exact ih (max b y) h

lemma foldl_max_le (l : List ℝ) (b c : ℝ) (hb : b ≤ c) (h : ∀ x ∈ l, x ≤ c) :
    l.foldl max b ≤ c := by
  induction l generalizing b with
  | nil => exact hb
  | cons y t ih =>
    rw [List.foldl_cons]
    exact ih (max b y) (max_le hb (h y (List.mem_cons_self y t)))
      (fun x hx => h x (List.mem_cons_of_mem y hx))

lemma scan_char (embedding : List ℝ) (l : List (String × List ℝ)) :
    ∀ acc : ℝ × Option String,
      (l.foldl (scanStep embedding) acc = acc ∧
          ∀ q ∈ l, _cosine_sim embedding q.2 ≤ acc.1)
      ∨ ∃ l₁ p l₂, l = l₁ ++ p :: l₂
          ∧ l.foldl (scanStep embedding) acc
              = (_cosine_sim embedding p.2, some p.1)
          ∧ acc.1 < _cosine_sim embedding p.2
          ∧ (∀ q ∈ l₁, _cosine_sim embedding q.2 < _cosine_sim embedding p.2)
          ∧ (∀ q ∈ l₂, _cosine_sim embedding q.2 ≤ _cosine_sim embedding p.2) := by
  induction l with
  | nil => exact fun acc => Or.inl ⟨rfl, by simp⟩
  | cons p t ih =>
    intro acc
    rw [List.foldl_cons]
    by_cases hgt : _cosine_sim embedding p.2 > acc.1
    · have hstep : scanStep embedding acc p
          = (_cosine_sim embedding p.2, some p.1) := by
        unfold scanStep
        rw [if_pos hgt]
      rw [hstep]
      rcases ih (_cosine_sim embedding p.2, some p.1) with
        ⟨hres, hall⟩ | ⟨l₁, q, l₂, heq, hres, hacc, hbef, haft⟩
      · refine Or.inr ⟨[], p, t, rfl, by rw [hres], hgt, by simp, ?_⟩
        exact fun q hq => hall q hq
      · refine Or.inr ⟨p :: l₁, q, l₂, by rw [heq]; rfl, hres,
          lt_trans hgt hacc, ?_, haft⟩
        intro r hr
        rcases List.mem_cons.mp hr with h | h
        · rw [h]; exact hacc
        · exact hbef r h
    · have hstep : scanStep embedding acc p = acc := by
        unfold scanStep
        rw [if_neg hgt]
      rw [hstep]
      rcases ih acc with
        ⟨hres, hall⟩ | ⟨l₁, q, l₂, heq, hres, hacc, hbef, haft⟩
      · refine Or.inl ⟨hres, ?_⟩
        intro q hq
        rcases List.mem_cons.mp hq with h | h
        · rw [h]; exact le_of_not_lt hgt
        · exact hall q h
      · refine Or.inr ⟨p :: l₁, q, l₂, by rw [heq]; rfl, hres, hacc, ?_, haft⟩
        intro r hr
        rcases List.mem_cons.mp hr with h | h
        · rw [h]; exact lt_of_le_of_lt (le_of_not_lt hgt) hacc
        · exact hbef r h

lemma scan_spec (embedding : List ℝ) (l : List (String × List ℝ)) :
    (l.foldl (scanStep embedding) ((-1 : ℝ), (none : Option String))
        = ((-1 : ℝ), (none : Option String)) ∧ maxSim embedding l ≤ -1)
    ∨ ∃ l₁ p l₂, l = l₁ ++ p :: l₂
        ∧ l.foldl (scanStep embedding) ((-1 : ℝ), (none : Option String))
            = (_cosine_sim embedding p.2, some p.1)
        ∧ _cosine_sim embedding p.2 = maxSim embedding l
        ∧ ∀ q ∈ l₁, _cosine_sim embedding q.2 < _cosine_sim embedding p.2 := by
  rcases scan_char embedding l ((-1 : ℝ), (none : Option String)) with
    ⟨hres, hall⟩ | ⟨l₁, p, l₂, heq, hres, hacc, hbef, haft⟩
  · refine Or.inl ⟨hres, ?_⟩
    refine foldl_max_le _ _ _ le_rfl ?_
    intro x hx
    obtain ⟨q, hq, rfl⟩ := List.mem_map.mp hx
    exact hall q hq
  · refine Or.inr ⟨l₁, p, l₂, heq, hres, ?_, hbef⟩
    apply le_antisymm
    · apply mem_le_foldl_max
      exact List.mem_map.mpr ⟨p,
        heq ▸ List.mem_append_right l₁ (List.mem_cons_self p l₂), rfl⟩
    · apply foldl_max_le _ _ _ (le_of_lt hacc)
      intro x hx
      obtain ⟨q, hq, rfl⟩ := List.mem_map.mp hx
      rw [heq] at hq
      rcases List.mem_append.mp hq with h | h
      · exact le_of_lt (hbef q h)
      · rcases List.mem_cons.mp h with h | h
        · rw [h]
        · exact haft q h

lemma match_or_create_eq_some (embedding : List ℝ) (s : SpeakerTracker)
    (bs : ℝ) (bl : String)
    (h : s.speakers.foldl (scanStep embedding)
        ((-1 : ℝ), (none : Option String)) = (bs, some bl))
    (hth : MATCH_THRESHOLD ≤ bs) :
    _match_or_create embedding s
      = (bl, { s with speakers := updateFirst s.speakers bl embedding }) := by
  unfold _match_or_create
  rw [h]
  dsimp only
  rw [if_pos hth]

lemma match_or_create_eq_low (embedding : List ℝ) (s : SpeakerTracker)
    (bs : ℝ) (bl : String)
    (h : s.speakers.foldl (scanStep embedding)
        ((-1 : ℝ), (none : Option String)) = (bs, some bl))
    (hlt : bs < MATCH_THRESHOLD) :
    _match_or_create embedding s = newSpeaker embedding s := by
  unfold _match_or_create
  rw [h]
  dsimp only
  rw [if_neg (not_le.mpr hlt)]

lemma match_or_create_eq_none (embedding : List ℝ) (s : SpeakerTracker)
    (bs : ℝ)
    (h : s.speakers.foldl (scanStep embedding)
        ((-1 : ℝ), (none : Option String)) = (bs, none)) :
    _match_or_create embedding s = newSpeaker embedding s := by
  unfold _match_or_create
  rw [h]

lemma updateFirst_eq (l₁ : List (String × List ℝ)) (p : String × List ℝ)
    (l₂ : List (String × List ℝ)) (embedding : List ℝ)
    (hnot : p.1 ∉ l₁.map Prod.fst) :
    updateFirst (l₁ ++ p :: l₂) p.1 embedding
      = l₁ ++ (p.1, updateCentroid p.2 embedding) :: l₂ := by
  induction l₁ with
  | nil => simp [updateFirst]
  | cons q t ih =>
    rw [List.cons_append, List.cons_append]
    unfold updateFirst
    rw [if_neg ?_]
    · rw [ih ?_]
      intro hm
      exact hnot (List.mem_cons_of_mem q.1 hm)
    · intro hq
      exact hnot (by rw [← hq]; exact List.mem_cons_self q.1 (t.map Prod.fst))

lemma nodup_head_not_mem (l₁ : List (String × List ℝ)) (p : String × List ℝ)
    (l₂ : List (String × List ℝ))
    (hnd : ((l₁ ++ p :: l₂).map Prod.fst).Nodup) :
    p.1 ∉ l₁.map Prod.fst := by
  rw [List.map_append] at hnd
  have hdisj := List.disjoint_of_nodup_append hnd
  intro hmem
  exact hdisj hmem (by simp)

lemma match_update_spec (embedding : List ℝ) (s : SpeakerTracker)
    (hnd : (s.speakers.map Prod.fst).Nodup)
    (hth : MATCH_THRESHOLD ≤ maxSim embedding s.speakers) :
    ∃ l₁ p l₂, s.speakers = l₁ ++ p :: l₂
      ∧ _cosine_sim embedding p.2 = maxSim embedding s.speakers
      ∧ (∀ q ∈ l₁, _cosine_sim embedding q.2 < maxSim embedding s.speakers)
      ∧ _match_or_create embedding s
          = (p.1, { s with
              speakers := l₁ ++ (p.1, updateCentroid p.2 embedding) :: l₂ }) := by
  rcases scan_spec embedding s.speakers with
    ⟨hres, hmax⟩ | ⟨l₁, p, l₂, heq, hres, hmax, hbef⟩
  · exfalso
    have h1 : (-1 : ℝ) < MATCH_THRESHOLD := by norm_num [MATCH_THRESHOLD]
    linarith
  · have hthp : MATCH_THRESHOLD ≤ _cosine_sim embedding p.2 :=
      le_of_le_of_eq hth hmax.symm
    have heqm := match_or_create_eq_some embedding s _ p.1 hres hthp
    have hupd := updateFirst_eq l₁ p l₂ embedding
      (nodup_head_not_mem l₁ p l₂ (by rw [← heq]; exact hnd))
    refine ⟨l₁, p, l₂, heq, hmax,
      (fun q hq => lt_of_lt_of_eq (hbef q hq) hmax), ?_⟩
    rw [heqm, heq, hupd]

/-- Claim C2: with a non-empty registry with pairwise distinct labels and
best similarity at least the threshold, `_match_or_create` returns the
label of a best-matching speaker, replaces exactly that speaker's
centroid by `0.9 * old + 0.1 * new` elementwise, appends nothing, and
leaves every other entry (the two surrounding sublists) unchanged. -/
theorem match_updates_best (embedding : List ℝ) (s : SpeakerTracker)
    (_hne : s.speakers ≠ [])
    (hnd : (s.speakers.map Prod.fst).Nodup)
    (hth : MATCH_THRESHOLD ≤ maxSim embedding s.speakers) :
    ∃ l₁ p l₂, s.speakers = l₁ ++ p :: l₂
      ∧ _cosine_sim embedding p.2 = maxSim embedding s.speakers
      ∧ _match_or_create embedding s
          = (p.1, { s with
              speakers := l₁ ++ (p.1, updateCentroid p.2 embedding) :: l₂ }) := by
  obtain ⟨l₁, p, l₂, heq, hmax, _, hres⟩ := match_update_spec embedding s hnd hth
  exact ⟨l₁, p, l₂, heq, hmax, hres⟩

/-- Claim C8: under the same hypotheses, the selected speaker is the
earliest one attaining the maximal similarity: every entry strictly
before it in insertion order has similarity strictly below the maximum,
and it is that speaker's centroid that is updated and that label that is
returned. -/
theorem match_tiebreak_first (embedding : List ℝ) (s : SpeakerTracker)
    (hnd : (s.speakers.map Prod.fst).Nodup)
    (hth : MATCH_THRESHOLD ≤ maxSim embedding s.speakers) :
    ∃ l₁ p l₂, s.speakers = l₁ ++ p :: l₂
      ∧ _cosine_sim embedding p.2 = maxSim embedding s.speakers
      ∧ (∀ q ∈ l₁, _cosine_sim embedding q.2 < maxSim embedding s.speakers)
      ∧ _match_or_create embedding s
          = (p.1, { s with
              speakers := l₁ ++ (p.1, updateCentroid p.2 embedding) :: l₂ }) :=
  match_update_spec embedding s hnd hth

lemma cosine_sim_one : _cosine_sim [(1 : ℝ)] [(1 : ℝ)] = 1 := by
  unfold _cosine_sim
  rw [norm_single_one, show dot [(1 : ℝ)] [(1 : ℝ)] = 1 by simp [dot]]
  norm_num

lemma cosine_sim_orth : _cosine_sim [(0 : ℝ), 1] [(1 : ℝ), 0] = 0 := by
  unfold _cosine_sim
  split_ifs
  · rfl
  · rw [show dot [(0 : ℝ), 1] [(1 : ℝ), 0] = 0 by norm_num [dot], zero_div]

/-- Test fixture: a tracker with a loaded model and one speaker whose
centroid is the one-dimensional embedding `[1]`. -/
def tOne : SpeakerTracker := ⟨some (), false, [("Speaker 1", [1])]⟩

/-- Test fixture: a tracker with two speakers sharing the same centroid
`[1]`, so both attain the same similarity to `[1]`. -/
def tTie : SpeakerTracker :=
  ⟨some (), false, [("Speaker 1", [1]), ("Speaker 2", [1])]⟩

/-- Witness for C2: matching `[1]` against the single speaker of `tOne`
(similarity 1 ≥ 0.82). -/
theorem match_updates_best_witness :
    ∃ l₁ p l₂, tOne.speakers = l₁ ++ p :: l₂
      ∧ _cosine_sim [(1 : ℝ)] p.2 = maxSim [(1 : ℝ)] tOne.speakers
      ∧ _match_or_create [(1 : ℝ)] tOne
          = (p.1, { tOne with
              speakers := l₁ ++ (p.1, updateCentroid p.2 [(1 : ℝ)]) :: l₂ }) :=
  match_updates_best [(1 : ℝ)] tOne (by simp [tOne]) (by simp [tOne])
    (by
      rw [show maxSim [(1 : ℝ)] tOne.speakers
            = max (-1) (_cosine_sim [(1 : ℝ)] [(1 : ℝ)]) from rfl,
        cosine_sim_one, max_eq_right (by norm_num : (-1 : ℝ) ≤ 1)]
      norm_num [MATCH_THRESHOLD])

/-- Witness for C8: `[1]` ties both speakers of `tTie` at similarity 1;
the theorem applies and selects a first-occurring maximiser. -/
theorem match_tiebreak_first_witness :
    ∃ l₁ p l₂, tTie.speakers = l₁ ++ p :: l₂
      ∧ _cosine_sim [(1 : ℝ)] p.2 = maxSim [(1 : ℝ)] tTie.speakers
      ∧ (∀ q ∈ l₁, _cosine_sim [(1 : ℝ)] q.2 < maxSim [(1 : ℝ)] tTie.speakers)
      ∧ _match_or_create [(1 : ℝ)] tTie
          = (p.1, { tTie with
              speakers := l₁ ++ (p.1, updateCentroid p.2 [(1 : ℝ)]) :: l₂ }) :=
  match_tiebreak_first [(1 : ℝ)] tTie (by simp [tTie])
    (by
      rw [show maxSim [(1 : ℝ)] tTie.speakers
            = max (max (-1) (_cosine_sim [(1 : ℝ)] [(1 : ℝ)]))
                (_cosine_sim [(1 : ℝ)] [(1 : ℝ)]) from rfl]
      simp only [cosine_sim_one]
      rw [max_eq_right (by norm_num : (-1 : ℝ) ≤ 1), max_self]
      norm_num [MATCH_THRESHOLD])

lemma match_creates (embedding : List ℝ) (s : SpeakerTracker)
    (h : s.speakers = [] ∨ maxSim embedding s.speakers < MATCH_THRESHOLD) :
    _match_or_create embedding s
      = ("Speaker " ++ toString (s.speakers.length + 1),
         { s with speakers := s.speakers
            ++ [("Speaker " ++ toString (s.speakers.length + 1), embedding)] }) := by
  rcases scan_spec embedding s.speakers with
    ⟨hres, hmax⟩ | ⟨l₁, p, l₂, heq, hres, hmaxe, hbef⟩
  · rw [match_or_create_eq_none embedding s (-1) hres]
    rfl
  · have hlt : _cosine_sim embedding p.2 < MATCH_THRESHOLD := by
      rcases h with h | h
      · exfalso
        rw [h] at heq
        exact List.cons_ne_nil p l₂ (List.append_eq_nil.mp heq.symm).2
      · rw [hmaxe]; exact h
    rw [match_or_create_eq_low embedding s _ p.1 hres hlt]
    rfl

/-- Claim C3: when the registry is empty or the best similarity is below
the threshold, `_match_or_create` appends exactly one new entry labelled
`"Speaker " + (count + 1)` whose centroid is the embedding (copying is
identity on immutable values), and returns that label; consequently, from
an empty registry, two successive embeddings whose similarity is below
the threshold receive "Speaker 1" and "Speaker 2". -/
theorem match_creates_new_speaker :
    (∀ embedding s,
      (s.speakers = [] ∨ maxSim embedding s.speakers < MATCH_THRESHOLD) →
      _match_or_create embedding s
        = ("Speaker " ++ toString (s.speakers.length + 1),
           { s with speakers := s.speakers
              ++ [("Speaker " ++ toString (s.speakers.length + 1), embedding)] }))
    ∧ ∀ e₁ e₂ s, s.speakers = [] → _cosine_sim e₂ e₁ < MATCH_THRESHOLD →
        (_match_or_create e₁ s).1 = "Speaker 1" ∧
        (_match_or_create e₂ (_match_or_create e₁ s).2).1 = "Speaker 2" := by
  refine ⟨match_creates, ?_⟩
  intro e₁ e₂ s hs hsim
  have h1 := match_creates e₁ s (Or.inl hs)
  rw [hs] at h1
  refine ⟨by rw [h1]; rfl, ?_⟩
  have h2state : (_match_or_create e₁ s).2.speakers = [("Speaker 1", e₁)] := by
    rw [h1]
    rfl
  have hmax2 : maxSim e₂ (_match_or_create e₁ s).2.speakers < MATCH_THRESHOLD := by
    rw [h2state,
      show maxSim e₂ [("Speaker 1", e₁)] = max (-1) (_cosine_sim e₂ e₁) from rfl]
    exact max_lt (by norm_num [MATCH_THRESHOLD]) hsim
  have h2 := match_creates e₂ (_match_or_create e₁ s).2 (Or.inr hmax2)
  rw [h2, h2state]
  norm_num
  exact rfl

/-- Witness for C3: a fresh speaker from an empty registry, then the
two-call scenario with the orthogonal embeddings `[1, 0]` and `[0, 1]`
(similarity 0 < 0.82), yielding "Speaker 1" then "Speaker 2". -/
theorem match_creates_new_speaker_witness :
    _match_or_create [(1 : ℝ)] ⟨none, false, []⟩
        = ("Speaker 1", ⟨none, false, [("Speaker 1", [1])]⟩) ∧
      (_match_or_create [(1 : ℝ), 0] ⟨some (), false, []⟩).1 = "Speaker 1" ∧
      (_match_or_create [(0 : ℝ), 1]
        (_match_or_create [(1 : ℝ), 0] ⟨some (), false, []⟩).2).1 = "Speaker 2" := by
  refine ⟨?_, match_creates_new_speaker.2 [(1 : ℝ), 0] [(0 : ℝ), 1]
    ⟨some (), false, []⟩ rfl (by rw [cosine_sim_orth]; norm_num [MATCH_THRESHOLD])⟩
  exact match_creates_new_speaker.1 [(1 : ℝ)] ⟨none, false, []⟩ (Or.inl rfl)

/-- Invariant carried by every reachable tracker state: a recorded load
failure implies no cached model, and no cached model implies an empty
registry (speakers are only ever created after a successful embedding,
which requires a cached model, and a cached model is never discarded). -/
def Inv (s : SpeakerTracker) : Prop :=
  (s.load_failed = true → s.model = none) ∧ (s.model = none → s.speakers = [])

lemma inv_load_model (env : Backend) (s : SpeakerTracker) (h : Inv s) :
    Inv (_load_model env s) := by
  unfold _load_model
  split_ifs with h1 h2 h3
  · exact h
  · simp only [Bool.or_eq_true, not_or, Bool.not_eq_true] at h1
    have hmn : s.model = none := by
      cases hm : s.model with
      | none => rfl
      | some u => rw [hm] at h1; simp at h1
    exact ⟨fun _ => hmn, fun _ => h.2 hmn⟩
  · simp only [Bool.or_eq_true, not_or, Bool.not_eq_true] at h1
    constructor
    · intro hf
      rw [h1.2] at hf
      cases hf
    · intro hm
      cases hm
  · simp only [Bool.or_eq_true, not_or, Bool.not_eq_true] at h1
    have hmn : s.model = none := by
      cases hm : s.model with
      | none => rfl
      | some u => rw [hm] at h1; simp at h1
    exact ⟨fun _ => hmn, fun _ => h.2 hmn⟩

lemma embed_none (env : Backend) (s : SpeakerTracker) (audio_pcm : List ℝ)
    (sample_rate : Nat) (hm : (_load_model env s).model = none) :
    _embed env s audio_pcm sample_rate = (Except.error (), _load_model env s) := by
  unfold _embed
  dsimp only
  rw [hm]

lemma embed_ok_isSome (env : Backend) (s : SpeakerTracker) (audio_pcm : List ℝ)
    (sample_rate : Nat) (embedding : List ℝ) (s1 : SpeakerTracker)
    (h : _embed env s audio_pcm sample_rate = (Except.ok embedding, s1)) :
    s1.model.isSome := by
  have hs1 : s1 = _load_model env s := by
    have h3 := embed_state env s audio_pcm sample_rate
    rw [h] at h3
    exact h3
  by_contra hns
  have hm : s1.model = none := Option.not_isSome_iff_eq_none.mp hns
  have h2 := embed_none env s audio_pcm sample_rate (by rw [← hs1]; exact hm)
  rw [h] at h2
  injection h2 with h21 h22
  exact Except.noConfusion h21

lemma inv_assign (env : Backend) (s : SpeakerTracker) (audio_pcm : List ℝ)
    (sample_rate : Nat) (h : Inv s) :
    Inv ((assign env s audio_pcm sample_rate).2) := by
  unfold assign
  split_ifs with h1 h2
  · exact h
  · exact h
  · rcases hE : _embed env s audio_pcm sample_rate with ⟨res, s1⟩
    have hs1 : s1 = _load_model env s := by
      have h3 := embed_state env s audio_pcm sample_rate
      rw [hE] at h3
      exact h3
    have hinv1 : Inv s1 := by
      rw [hs1]
      exact inv_load_model env s h
    cases res with
    | error e => exact hinv1
    | ok embedding =>
      show Inv ((_match_or_create embedding s1).2)
      have hsome : s1.model.isSome :=
        embed_ok_isSome env s audio_pcm sample_rate embedding s1 hE
      have hflags := match_or_create_flags embedding s1
      constructor
      · intro hf
        rw [hflags.2] at hf
        rw [hinv1.1 hf] at hsome
        cases hsome
      · intro hm
        rw [hflags.1] at hm
        rw [hm] at hsome
        cases hsome

lemma inv_reachable (s : SpeakerTracker) (h : Reachable s) : Inv s := by
  induction h with
  | init => exact ⟨fun _ => rfl, fun _ => rfl⟩
  | step env s1 audio_pcm sample_rate _ ih => exact inv_assign env s1 audio_pcm sample_rate ih
  | reset_step s1 _ ih => exact ⟨fun hf => ih.1 hf, fun _ => rfl⟩

/-- Claim C10: in every reachable tracker state, a recorded load failure
implies the registry is empty, and consequently every `assign` call —
short segments routed through the length gate included — returns
"Speaker 1" with the state unchanged (so the registry also stays empty
forever). -/
theorem unavailable_registry_empty (s : SpeakerTracker) (hr : Reachable s)
    (hlf : s.load_failed = true) :
    s.speakers = [] ∧
      ∀ env audio_pcm sample_rate,
        assign env s audio_pcm sample_rate = ("Speaker 1", s) := by
  have hinv := inv_reachable s hr
  have hsp : s.speakers = [] := hinv.2 (hinv.1 hlf)
  refine ⟨hsp, fun env audio_pcm sample_rate => ?_⟩
  unfold assign
  by_cases hl : audio_pcm.length < MIN_SAMPLES
  · rw [if_pos hl, hsp]
  · rw [if_neg hl, hlf]
    exact if_pos rfl

lemma assign_no_ffmpeg :
    assign tEnvNoFfmpeg ⟨none, false, []⟩ (tAudio 1600) 16000
      = ("Speaker 1", ⟨none, true, []⟩) := by
  unfold assign
  rw [if_neg (by norm_num [tAudio, MIN_SAMPLES]), if_neg (by simp)]
  rfl

lemma reach_bad : Reachable (⟨none, true, []⟩ : SpeakerTracker) := by
  have h := Reachable.step tEnvNoFfmpeg ⟨none, false, []⟩ (tAudio 1600) 16000
    Reachable.init
  rw [assign_no_ffmpeg] at h
  exact h

/-- Witness for C10 at the reachable state obtained by one `assign` call
on a fresh tracker under an environment with no ffmpeg binary; the
subsequent call uses a short segment, exercising the length-gate path. -/
theorem unavailable_registry_empty_witness :
    (⟨none, true, []⟩ : SpeakerTracker).speakers = [] ∧
      assign tEnvOk ⟨none, true, []⟩ (tAudio 100) 16000
        = ("Speaker 1", ⟨none, true, []⟩) :=
  ⟨(unavailable_registry_empty ⟨none, true, []⟩ reach_bad rfl).1,
   (unavailable_registry_empty ⟨none, true, []⟩ reach_bad rfl).2 tEnvOk
     (tAudio 100) 16000⟩

end MeetMate
